import Mathlib

/-!
# Verification of the magi rollup-node core (SpecularL2/magi)

A shallow embedding, in Lean 4, of the derivation-pipeline, engine-driver and
sequencing code of the magi repository, together with theorems settling the
stated properties of that code.

Conventions of the embedding:
* Rust `u64`, `U256`, `H256` and `Address` values are modelled as `Nat`.
  Where overflow or underflow of the machine type matters (the `u64`
  subtraction in `decode_batches_v0`, the `U256::as_u64` casts), it is made
  explicit with `% 2 ^ 64` or a `panic` branch; elsewhere the values stay
  small and plain `Nat` is the faithful model.
* Byte sequences (`Bytes`, calldata, raw transactions) are `List Nat`.
* Fallible Rust code (`eyre::Result`) becomes `Except` with an inductive
  error type; a Rust `panic!`/`unwrap` on a reachable branch is a dedicated
  `panic` error constructor, kept distinct from recoverable `bail!` errors.
* External collaborators (keccak-256, ECDSA signing, the RLP transaction
  decoder, the JSON-RPC providers) are parameters of the functions that call
  them; the ABI codec for the two fixed method signatures is implemented
  concretely from its documented layout.
-/

namespace Magi

/-- Decidable equality on `Except`, used to evaluate the embedded fallible
functions on concrete inputs. -/
instance {ε α : Type} [DecidableEq ε] [DecidableEq α] : DecidableEq (Except ε α) :=
  fun a b =>
    match a, b with
    | Except.error e, Except.error f =>
        if h : e = f then isTrue (by rw [h]) else isFalse (by simp [h])
    | Except.ok x, Except.ok y =>
        if h : x = y then isTrue (by rw [h]) else isFalse (by simp [h])
    | Except.error _, Except.ok _ => isFalse (by simp)
    | Except.ok _, Except.error _ => isFalse (by simp)

/-- An opaque byte sequence holding one signed L2 transaction
(`RawTransaction` in `common`). -/
abbrev RawTransaction := List Nat

/-- `BlockInfo`: number, hash, parent hash and timestamp of an L2 block
(`common::BlockInfo`, fields `u64`, `H256`, `H256`, `u64`). -/
structure BlockInfo where
  number : Nat
  hash : Nat
  parent_hash : Nat
  timestamp : Nat
  deriving DecidableEq, Repr

/-- `Epoch`: a reference to an L1 block (`common::Epoch`). -/
structure Epoch where
  number : Nat
  hash : Nat
  timestamp : Nat
  deriving DecidableEq, Repr

/-- `l1::L1BlockInfo`: an L1 block together with the fields the sequencing
and batch-validation code reads (`base_fee`, `mix_hash`, `state_root`). -/
structure L1BlockInfo where
  number : Nat
  hash : Nat
  timestamp : Nat
  base_fee : Nat
  mix_hash : Nat
  state_root : Nat
  deriving DecidableEq, Repr

/-- `engine::PayloadAttributes` as the sequencing and driver code uses it. -/
structure PayloadAttributes where
  timestamp : Nat
  prev_randao : Nat
  suggested_fee_recipient : Nat
  transactions : Option (List RawTransaction)
  no_tx_pool : Bool
  gas_limit : Nat
  epoch : Option Epoch
  l1_inclusion_block : Option Nat
  seq_number : Option Nat
  deriving DecidableEq, Repr

/-- `specular::sequencing::config::Config` restricted to the fields the
attributes builder reads. -/
structure SeqConfig where
  max_safe_lag : Nat
  max_seq_drift : Nat
  blocktime : Nat
  batch_sender : Nat
  gas_limit : Nat
  l1_oracle : Nat
  deriving DecidableEq, Repr

/-- Errors surfaced by the sequencing attributes builder. -/
inductive SeqErr where
  /-- `eyre!("current origin drift bound exceeded.")` -/
  | driftBoundExceeded
  /-- `eyre!("client not initialized")` -/
  | clientNotInitialized
  /-- a failure of the external provider/signer while building the oracle
  update transaction -/
  | signingFailed
  deriving DecidableEq, Repr

/-- `AttributesBuilder::next_timestamp`: the next L2 block timestamp given
the parent block timestamp. -/
def next_timestamp (cfg : SeqConfig) (parent_block_timestamp : Nat) : Nat :=
  parent_block_timestamp + cfg.blocktime

/-- `AttributesBuilder::next_drift_bound`: the drift bound on the next L2
block's timestamp. -/
def next_drift_bound (cfg : SeqConfig) (curr_origin : L1BlockInfo) : Nat :=
  curr_origin.timestamp + cfg.max_seq_drift

/-- `AttributesBuilder::find_next_origin` (src/specular/sequencing/mod.rs):
picks the origin of the next L2 block from the current L1 epoch and the next
one, when known. -/
def find_next_origin (cfg : SeqConfig) (curr_l2_block : BlockInfo)
    (curr_l1_epoch : L1BlockInfo) (next_l1_epoch : Option L1BlockInfo) :
    Except SeqErr L1BlockInfo :=
  let next_l2_ts := next_timestamp cfg curr_l2_block.timestamp
  let bound := next_drift_bound cfg curr_l1_epoch
  let is_drift_bound_exceeded : Bool := decide (next_l2_ts > bound)
  match next_l1_epoch, is_drift_bound_exceeded with
  | some nextEpoch, _ =>
      if next_l2_ts ≥ nextEpoch.timestamp then Except.ok nextEpoch
      else Except.ok curr_l1_epoch
  | none, true => Except.error SeqErr.driftBoundExceeded
  | none, false => Except.ok curr_l1_epoch

/-- `AttributesBuilder::is_ready` (`SequencingPolicy` impl): the wall clock
`unix_now()` is passed in as `now`. -/
def is_ready (cfg : SeqConfig) (parent_l2_block safe_l2_head : BlockInfo)
    (now : Nat) : Bool :=
  decide (safe_l2_head.number + cfg.max_safe_lag > parent_l2_block.number)
    && decide (next_timestamp cfg parent_l2_block.timestamp ≤ now)

/-- `create_epoch`: extracts the epoch information from an `L1BlockInfo`. -/
def create_epoch (info : L1BlockInfo) : Epoch :=
  { number := info.number, hash := info.hash, timestamp := info.timestamp }

/-- `create_l1_oracle_update_transaction`: the top-of-block transaction is
omitted when the chosen origin is still the parent's L1 epoch; otherwise the
external provider and signer (`signTx`) produce one signed transaction. -/
def create_l1_oracle_update_transaction
    (signTx : L1BlockInfo → Except SeqErr RawTransaction)
    (parent_l1_epoch : L1BlockInfo) (origin : L1BlockInfo) :
    Except SeqErr (Option (List RawTransaction)) :=
  if parent_l1_epoch.number = origin.number then Except.ok none
  else
    match signTx origin with
    | Except.error e => Except.error e
    | Except.ok raw_tx => Except.ok (some [raw_tx])

/-- `AttributesBuilder::get_attributes`: builds the payload attributes for
the next L2 block on top of `parent_l2_block`. -/
def get_attributes (cfg : SeqConfig)
    (signTx : L1BlockInfo → Except SeqErr RawTransaction)
    (parent_l2_block : BlockInfo) (parent_l1_epoch : L1BlockInfo)
    (next_l1_epoch : Option L1BlockInfo) : Except SeqErr PayloadAttributes :=
  match find_next_origin cfg parent_l2_block parent_l1_epoch next_l1_epoch with
  | Except.error e => Except.error e
  | Except.ok next_origin =>
    let timestamp := next_timestamp cfg parent_l2_block.timestamp
    match create_l1_oracle_update_transaction signTx parent_l1_epoch next_origin with
    | Except.error e => Except.error e
    | Except.ok txs =>
      Except.ok
        { timestamp := timestamp
          prev_randao := next_origin.mix_hash
          suggested_fee_recipient := cfg.batch_sender
          transactions := txs
          no_tx_pool := decide (timestamp > cfg.max_seq_drift)
          gas_limit := cfg.gas_limit
          epoch := some (create_epoch next_origin)
          l1_inclusion_block := none
          seq_number := none }

/-- Concrete parent L2 block for the C1 counterexample. -/
def c1ParentBlock : BlockInfo :=
  { number := 7, hash := 70, parent_hash := 69, timestamp := 20 }

/-- Concrete parent L1 epoch for the C1 counterexample. -/
def c1ParentEpoch : L1BlockInfo :=
  { number := 3, hash := 31, timestamp := 0, base_fee := 5, mix_hash := 6,
    state_root := 7 }

/-- Concrete next L1 epoch for the C1 counterexample: its timestamp lies in
the future of the next L2 timestamp. -/
def c1NextEpoch : L1BlockInfo :=
  { number := 4, hash := 41, timestamp := 30, base_fee := 5, mix_hash := 6,
    state_root := 7 }

/-- Sequencer configuration for the C1 counterexample. -/
def c1Config : SeqConfig :=
  { max_safe_lag := 10, max_seq_drift := 10, blocktime := 2,
    batch_sender := 1, gas_limit := 1000, l1_oracle := 2 }

/-- The three L2 head pointers of the engine driver, each paired with its
epoch (`driver::engine_driver::EngineDriver`, state fields only; the engine
handle, provider and blocktime do not enter the head-update logic). -/
structure EngineDriverState where
  unsafe_head : BlockInfo
  unsafe_epoch : Epoch
  safe_head : BlockInfo
  safe_epoch : Epoch
  finalized_head : BlockInfo
  finalized_epoch : Epoch
  deriving DecidableEq, Repr

/-- `driver::engine_driver::ChainHead`. -/
inductive ChainHead where
  | Safe
  | Unsafe
  deriving DecidableEq, Repr

/-- Panics of the engine driver modelled as errors (`attrs.epoch.unwrap()`
on attributes carrying no epoch). -/
inductive DriverPanic where
  | epochUnwrapNone
  deriving DecidableEq, Repr

/-- `EngineDriver::update_unsafe_head`. -/
def update_unsafe_head (d : EngineDriverState) (head : BlockInfo) (epoch : Epoch) :
    EngineDriverState :=
  { d with unsafe_head := head, unsafe_epoch := epoch }

/-- `EngineDriver::update_safe_head`: sets the safe head when it changed,
then reorgs the unsafe head onto it when asked to or when the (new) safe
head number exceeds the unsafe head number. -/
def update_safe_head (d : EngineDriverState) (head : BlockInfo) (epoch : Epoch)
    ( reorg_unsafe : Bool) : EngineDriverState :=
  let d1 := if d.safe_head ≠ head then { d with safe_head := head, safe_epoch := epoch } else d
  if reorg_unsafe || decide (d1.safe_head.number > d1.unsafe_head.number) then
    update_unsafe_head d1 d1.safe_head d1.safe_epoch
  else d1

/-- The `Action::Skip` arm of `execute_action`
(src/driver/engine_driver.rs): a fork-choice-update-only head move; the
engine is not called for the head bookkeeping itself. -/
def execute_action_skip (attrs : PayloadAttributes) (info : BlockInfo)
    (target : ChainHead) (d : EngineDriverState) :
    Except DriverPanic EngineDriverState :=
  match attrs.epoch with
  | none => Except.error DriverPanic.epochUnwrapNone
  | some epoch =>
    match target with
    | ChainHead.Safe => Except.ok (update_safe_head d info epoch false)
    | ChainHead.Unsafe => Except.ok (update_unsafe_head d info epoch)

/-- Concrete driver state for the C3 counterexample: the unsafe head lags
behind the safe head. -/
def c3Driver : EngineDriverState :=
  { unsafe_head := { number := 1, hash := 11, parent_hash := 10, timestamp := 2 }
    unsafe_epoch := { number := 1, hash := 21, timestamp := 1 }
    safe_head := { number := 5, hash := 55, parent_hash := 54, timestamp := 10 }
    safe_epoch := { number := 2, hash := 22, timestamp := 5 }
    finalized_head := { number := 0, hash := 1, parent_hash := 0, timestamp := 0 }
    finalized_epoch := { number := 0, hash := 2, timestamp := 0 } }

/-- The discovered block of the C3 counterexample: equal to the current safe
head. -/
def c3Info : BlockInfo :=
  { number := 5, hash := 55, parent_hash := 54, timestamp := 10 }

/-- The attributes' epoch of the C3 counterexample: differs from the current
safe epoch. -/
def c3Epoch : Epoch :=
  { number := 3, hash := 33, timestamp := 7 }

/-- Attributes carrying `c3Epoch`, for the C3 counterexample. -/
def c3Attrs : PayloadAttributes :=
  { timestamp := 10, prev_randao := 0, suggested_fee_recipient := 0,
    transactions := some [], no_tx_pool := true, gas_limit := 0,
    epoch := some c3Epoch, l1_inclusion_block := none, seq_number := none }

/-- Big-endian interpretation of a byte sequence as a natural number (the
value of an ABI word). -/
def bytesToNat (bs : List Nat) : Nat :=
  bs.foldl (fun acc b => acc * 256 + b) 0

/-- The `n`-byte big-endian encoding of `v % 256 ^ n`. -/
def natToBytes : Nat → Nat → List Nat
  | 0, _ => []
  | n + 1, v => natToBytes n (v / 256) ++ [v % 256]

/-- One 32-byte ABI word. -/
def word32 (v : Nat) : List Nat :=
  natToBytes 32 v

/-- Failures of the ABI codec. -/
inductive AbiErr where
  | selectorMismatch
  | tooShort
  deriving DecidableEq, Repr

/-- Modelled from the spec: ABI encoding of the batcher-inbox call
`appendTxBatch(uint256 txBatchVersion, bytes txBatch)` (§6); the ethers ABI
codec used by the source is an external library. Head: the version word and
the offset (64) of the tail; tail: byte-length word then the bytes. -/
def encode_append_tx_batch (selector : List Nat) (version : Nat)
    (tx_batch : List Nat) : List Nat :=
  selector ++ word32 version ++ word32 64 ++ word32 tx_batch.length ++ tx_batch

/-- Modelled from the spec: ABI decoding of `appendTxBatch(uint256, bytes)`
calldata (§6), the inverse reading of `encode_append_tx_batch`. -/
def decode_append_tx_batch (selector : List Nat) (data : List Nat) :
    Except AbiErr (Nat × List Nat) :=
  if data.take 4 ≠ selector then Except.error AbiErr.selectorMismatch
  else
    let payload := data.drop 4
    if payload.length < 64 then Except.error AbiErr.tooShort
    else
      let version := bytesToNat (payload.take 32)
      let offset := bytesToNat ((payload.drop 32).take 32)
      if payload.length < offset + 32 then Except.error AbiErr.tooShort
      else
        let len := bytesToNat ((payload.drop offset).take 32)
        if payload.length < offset + 32 + len then Except.error AbiErr.tooShort
        else Except.ok (version, (payload.drop (offset + 32)).take len)

/-- `specular::stages::batcher_transactions::SpecularBatcherTransaction`. -/
structure SpecularBatcherTransaction where
  version : Nat
  tx_batch : List Nat
  deriving DecidableEq, Repr

/-- Errors of the batcher-transaction constructor; `panicU64Overflow` is the
`U256::as_u64` panic on a version word over `u64::MAX`. -/
inductive BatcherTxErr where
  | invalidData
  | notAppendTxBatch
  | abi (e : AbiErr)
  | panicU64Overflow
  deriving DecidableEq, Repr

/-- `SpecularBatcherTransaction::try_from(&[u8])`: ABI-decode the
`appendTxBatch` call; `version` is the decoded `txBatchVersion` argument
cast with `as_u64`, `tx_batch` the decoded `txBatch` bytes. -/
def SpecularBatcherTransaction.tryFrom (selector : List Nat) (value : List Nat) :
    Except BatcherTxErr SpecularBatcherTransaction :=
  match decode_append_tx_batch selector value with
  | Except.error e => Except.error (BatcherTxErr.abi e)
  | Except.ok (tx_batch_version, tx_batch) =>
      if tx_batch_version < 2 ^ 64 then
        Except.ok { version := tx_batch_version, tx_batch := tx_batch }
      else Except.error BatcherTxErr.panicU64Overflow

/-- `SpecularBatcherTransaction::new`: length and selector guard, then
`try_from`. -/
def SpecularBatcherTransaction.new (selector : List Nat) (data : List Nat) :
    Except BatcherTxErr SpecularBatcherTransaction :=
  if data.length < 4 then Except.error BatcherTxErr.invalidData
  else if data.take 4 ≠ selector then Except.error BatcherTxErr.notAppendTxBatch
  else SpecularBatcherTransaction.tryFrom selector data

/-- Modelled from the spec: an entry of the State registry's L1 index
(`l1::L1Info`; the `l1` module's definition is not among the given files).
It pairs the `L1BlockInfo` with the gas limit of its Optimism system
configuration when one is present (`system_config.as_optimism()`), which is
all the embedded code reads of it. -/
structure L1Info where
  block_info : L1BlockInfo
  system_config_gas_limit : Option Nat

/-- Modelled from the spec: the in-memory State registry (§4.2, C2; the
`derive::state` module is not among the given files): L1 lookups by number
and by hash, the highest observed L1 number, and the safe L2 head and
epoch. Lookups are total and return nothing on a miss. -/
structure State where
  l1_info_by_number_map : Nat → Option L1Info
  l1_info_by_hash_map : Nat → Option L1Info
  current_epoch_num : Nat
  safe_head : BlockInfo
  safe_epoch : Epoch

/-- `State::l1_info_by_number`. -/
def l1_info_by_number (s : State) (n : Nat) : Option L1Info :=
  s.l1_info_by_number_map n

/-- `State::l1_info_by_hash`. -/
def l1_info_by_hash (s : State) (h : Nat) : Option L1Info :=
  s.l1_info_by_hash_map h

/-- `State::epoch_by_number`: the derived epoch view of the L1 index. -/
def epoch_by_number (s : State) (n : Nat) : Option Epoch :=
  (s.l1_info_by_number_map n).map (fun i => create_epoch i.block_info)

/-- The chain-configuration fields the batches stage reads
(`config.chain.blocktime`, `config.chain.seq_window_size`,
`config.chain.meta.l1_oracle`). -/
structure ChainConfig where
  blocktime : Nat
  seq_window_size : Nat
  l1_oracle : Nat
  deriving DecidableEq, Repr

/-- Modelled from the spec: `derive::stages::batches::Batch` (§3; the
module is not among the given files). -/
structure Batch where
  epoch_num : Nat
  epoch_hash : Nat
  parent_hash : Nat
  timestamp : Nat
  transactions : List RawTransaction
  l1_inclusion_block : Nat
  deriving DecidableEq, Repr

/-- `specular::stages::batches::SpecularBatchV0`. -/
structure SpecularBatchV0 where
  epoch_num : Nat
  epoch_hash : Nat
  timestamp : Nat
  l2_block_number : Nat
  transactions : List RawTransaction
  l1_inclusion_block : Nat
  is_epoch_update : Bool
  deriving DecidableEq, Repr

/-- `SpecularBatchV0::has_invalid_transactions`: some transaction is the
empty byte string. -/
def has_invalid_transactions (batch : SpecularBatchV0) : Bool :=
  batch.transactions.any (fun tx => tx.isEmpty)

/-- `From<SpecularBatchV0> for Batch` (the `parent_hash` is defaulted). -/
def batch_of_v0 (b : SpecularBatchV0) : Batch :=
  { epoch_num := b.epoch_num, epoch_hash := b.epoch_hash, parent_hash := 0,
    timestamp := b.timestamp, transactions := b.transactions,
    l1_inclusion_block := b.l1_inclusion_block }

/-- `specular::stages::batches::BatchStatus`. -/
inductive BatchStatus where
  | Drop
  | Accept
  deriving DecidableEq, Repr

/-- The fields of an RLP-decoded signed transaction
(`ethers::types::Transaction`) that the epoch-update check and the
validator read; the RLP decoder itself is an external library and is passed
in as a function. -/
structure DecodedTx where
  from_addr : Nat
  to_addr : Option Nat
  gas : Nat
  gas_price : Option Nat
  input : List Nat
  deriving DecidableEq, Repr

/-- Modelled from the spec: ABI encoding of `setL1OracleValues(uint256
number, uint256 timestamp, uint256 baseFee, bytes32 hash, bytes32
stateRoot)` on the Specular path (§6); the `specular::common` ABI constants
are not among the given files. All five parameters are static words. -/
def encode_set_l1_oracle_values (selector : List Nat)
    (number timestamp baseFee hash stateRoot : Nat) : List Nat :=
  selector ++ word32 number ++ word32 timestamp ++ word32 baseFee ++
    word32 hash ++ word32 stateRoot

/-- Modelled from the spec: ABI decoding of `setL1OracleValues` calldata,
the inverse reading of `encode_set_l1_oracle_values`. -/
def decode_set_l1_oracle_values (selector : List Nat) (data : List Nat) :
    Except AbiErr (Nat × Nat × Nat × Nat × Nat) :=
  if data.take 4 ≠ selector then Except.error AbiErr.selectorMismatch
  else
    let payload := data.drop 4
    if payload.length < 160 then Except.error AbiErr.tooShort
    else
      Except.ok (bytesToNat (payload.take 32),
        bytesToNat ((payload.drop 32).take 32),
        bytesToNat ((payload.drop 64).take 32),
        bytesToNat ((payload.drop 96).take 32),
        bytesToNat ((payload.drop 128).take 32))

/-- Outcomes of `check_epoch_update_batch` other than success: `bail` is any
`eyre::bail!`/decode error (the caller drops the batch), `panicU64` the
`U256::as_u64` panic on a decoded word over `u64::MAX` (which unwinds
instead of dropping). -/
inductive CheckErr where
  | bail
  | panicU64
  deriving DecidableEq, Repr

/-- `check_epoch_update_batch` (src/specular/stages/batches.rs): validates
the L1-oracle update transaction at the top of an epoch-update batch.
`decodeTx` is the external RLP transaction decoder (`Transaction::decode`);
`none` is a decode failure. -/
def check_epoch_update_batch (cfg : ChainConfig) (oracleSelector : List Nat)
    (decodeTx : RawTransaction → Option DecodedTx) (state : State)
    (batch : SpecularBatchV0) : Except CheckErr Unit :=
  match batch.transactions with
  | [] => Except.error CheckErr.bail
  | tx0 :: _ =>
    match decodeTx tx0 with
    | none => Except.error CheckErr.bail
    | some tx =>
      match tx.to_addr with
      | none => Except.error CheckErr.bail
      | some toAddr =>
        if toAddr ≠ cfg.l1_oracle then Except.error CheckErr.bail
        else
          match decode_set_l1_oracle_values oracleSelector tx.input with
          | Except.error _ => Except.error CheckErr.bail
          | Except.ok (epoch_num, timestamp, base_fee, epoch_hash, state_root) =>
            if 2 ^ 64 ≤ epoch_num then Except.error CheckErr.panicU64
            else if epoch_num ≠ batch.epoch_num then Except.error CheckErr.bail
            else if epoch_hash ≠ batch.epoch_hash then Except.error CheckErr.bail
            else
              match l1_info_by_number state epoch_num with
              | none => Except.error CheckErr.bail
              | some target_epoch =>
                if epoch_hash ≠ target_epoch.block_info.hash then
                  Except.error CheckErr.bail
                else if 2 ^ 64 ≤ timestamp then Except.error CheckErr.panicU64
                else if timestamp ≠ target_epoch.block_info.timestamp then
                  Except.error CheckErr.bail
                else if base_fee ≠ target_epoch.block_info.base_fee then
                  Except.error CheckErr.bail
                else if state_root ≠ target_epoch.block_info.state_root then
                  Except.error CheckErr.bail
                else Except.ok ()

/-- `SpecularBatches::batch_status`: classifies the earliest buffered batch.
An `Except.error` models a panic unwinding out of the epoch-update check;
every `bail` inside it is turned into `Drop`. -/
def batch_status (cfg : ChainConfig) (oracleSelector : List Nat)
    (decodeTx : RawTransaction → Option DecodedTx) (state : State)
    (batch : SpecularBatchV0) : Except CheckErr BatchStatus :=
  let head := state.safe_head
  let next_ts := head.timestamp + cfg.blocktime
  if batch.timestamp ≠ next_ts then Except.ok BatchStatus.Drop
  else if batch.l2_block_number ≠ head.number + 1 then Except.ok BatchStatus.Drop
  else if batch.epoch_num + cfg.seq_window_size < batch.l1_inclusion_block then
    Except.ok BatchStatus.Drop
  else
    match
      (if batch.is_epoch_update then
        check_epoch_update_batch cfg oracleSelector decodeTx state batch
      else Except.ok ()) with
    | Except.error CheckErr.panicU64 => Except.error CheckErr.panicU64
    | Except.error CheckErr.bail => Except.ok BatchStatus.Drop
    | Except.ok () =>
      if has_invalid_transactions batch then Except.ok BatchStatus.Drop
      else Except.ok BatchStatus.Accept

/-- The epoch-update side condition as the C2 claim words it: the first
transaction decodes as a call to the configured L1 oracle whose
`setL1OracleValues` calldata exactly matches the `L1BlockInfo` stored in
State for its epoch number. (Unlike the code, it does not compare the
calldata against the batch's own `epoch_num`/`epoch_hash` fields.) -/
def claim_oracle_update_matches (cfg : ChainConfig) (oracleSelector : List Nat)
    (decodeTx : RawTransaction → Option DecodedTx) (state : State)
    (batch : SpecularBatchV0) : Bool :=
  match batch.transactions with
  | [] => false
  | tx0 :: _ =>
    match decodeTx tx0 with
    | none => false
    | some tx =>
      match tx.to_addr with
      | none => false
      | some toAddr =>
        decide (toAddr = cfg.l1_oracle) &&
          match decode_set_l1_oracle_values oracleSelector tx.input with
          | Except.error _ => false
          | Except.ok (epoch_num, timestamp, base_fee, epoch_hash, state_root) =>
            match l1_info_by_number state epoch_num with
            | none => false
            | some info =>
              decide (epoch_hash = info.block_info.hash) &&
                decide (timestamp = info.block_info.timestamp) &&
                decide (base_fee = info.block_info.base_fee) &&
                decide (state_root = info.block_info.state_root)

/-- The C2 claim's acceptance condition, following the claim's words. -/
def c2_claim_accepts (cfg : ChainConfig) (oracleSelector : List Nat)
    (decodeTx : RawTransaction → Option DecodedTx) (state : State)
    (batch : SpecularBatchV0) : Bool :=
  decide (batch.timestamp = state.safe_head.timestamp + cfg.blocktime) &&
    decide (batch.l2_block_number = state.safe_head.number + 1) &&
    decide (batch.epoch_num + cfg.seq_window_size ≥ batch.l1_inclusion_block) &&
    batch.transactions.all (fun tx => !tx.isEmpty) &&
    (!batch.is_epoch_update ||
      claim_oracle_update_matches cfg oracleSelector decodeTx state batch)

/-- The extra consistency the code demands of an epoch-update batch beyond
the C2 claim's words: the calldata's epoch number and hash must also equal
the batch's own `epoch_num` and `epoch_hash` fields. -/
def oracle_update_consistent_with_batch (oracleSelector : List Nat)
    (decodeTx : RawTransaction → Option DecodedTx)
    (batch : SpecularBatchV0) : Bool :=
  match batch.transactions with
  | [] => false
  | tx0 :: _ =>
    match decodeTx tx0 with
    | none => false
    | some tx =>
      match decode_set_l1_oracle_values oracleSelector tx.input with
      | Except.error _ => false
      | Except.ok (epoch_num, _, _, epoch_hash, _) =>
        decide (epoch_num = batch.epoch_num) &&
          decide (epoch_hash = batch.epoch_hash)

/-- The amended C2 acceptance condition: as the claim, but the calldata must
additionally agree with the batch's own `epoch_num` and `epoch_hash`
fields, as the code checks. -/
def c2_amended_accepts (cfg : ChainConfig) (oracleSelector : List Nat)
    (decodeTx : RawTransaction → Option DecodedTx) (state : State)
    (batch : SpecularBatchV0) : Bool :=
  decide (batch.timestamp = state.safe_head.timestamp + cfg.blocktime) &&
    decide (batch.l2_block_number = state.safe_head.number + 1) &&
    decide (batch.epoch_num + cfg.seq_window_size ≥ batch.l1_inclusion_block) &&
    batch.transactions.all (fun tx => !tx.isEmpty) &&
    (!batch.is_epoch_update ||
      (claim_oracle_update_matches cfg oracleSelector decodeTx state batch &&
        oracle_update_consistent_with_batch oracleSelector decodeTx batch))

/-- A stand-in 4-byte selector for `setL1OracleValues` used by the C2
inputs. -/
def c2OracleSelector : List Nat :=
  [9, 9, 9, 9]

/-- The L1 block the State of the C2 inputs stores at number 5. -/
def c2InfoBlock : L1BlockInfo :=
  { number := 5, hash := 77, timestamp := 1111, base_fee := 7, mix_hash := 8,
    state_root := 9 }

/-- The State entry wrapping `c2InfoBlock`. -/
def c2Info : L1Info :=
  { block_info := c2InfoBlock, system_config_gas_limit := some 30000000 }

/-- The State of the C2 inputs. -/
def c2State : State :=
  { l1_info_by_number_map := (fun n => if n = 5 then some c2Info else none),
    l1_info_by_hash_map := (fun _ => none),
    current_epoch_num := 12,
    safe_head := { number := 100, hash := 1000, parent_hash := 999, timestamp := 2000 },
    safe_epoch := { number := 4, hash := 44, timestamp := 900 } }

/-- The chain configuration of the C2 inputs. -/
def c2Cfg : ChainConfig :=
  { blocktime := 2, seq_window_size := 10, l1_oracle := 500 }

/-- `setL1OracleValues` calldata quoting exactly the stored L1 block at
number 5. -/
def c2Calldata : List Nat :=
  encode_set_l1_oracle_values c2OracleSelector 5 1111 7 77 9

/-- The external RLP transaction decoder of the C2 inputs: the raw byte
string `[1]` decodes to a call to the oracle address with `c2Calldata`. -/
def c2DecodeTx : RawTransaction → Option DecodedTx :=
  fun tx =>
    if tx = [1] then
      some { from_addr := 3, to_addr := some 500, gas := 21000,
             gas_price := some 1, input := c2Calldata }
    else none

/-- The C2 counterexample batch: its `epoch_hash` field (99) disagrees with
the true L1 hash (77) that its oracle-update calldata quotes, while every
condition listed by the claim holds. -/
def c2Batch : SpecularBatchV0 :=
  { epoch_num := 5, epoch_hash := 99, timestamp := 2002, l2_block_number := 101,
    transactions := [[1]], l1_inclusion_block := 12, is_epoch_update := true }

/-- The C2 witness batch: as `c2Batch` but with the correct epoch hash. -/
def c2BatchGood : SpecularBatchV0 :=
  { epoch_num := 5, epoch_hash := 77, timestamp := 2002, l2_block_number := 101,
    transactions := [[1]], l1_inclusion_block := 12, is_epoch_update := true }

/-- A stand-in 4-byte selector for `appendTxBatch` in the C4 counterexample
(its keccak-derived value is irrelevant to the property). -/
def c4Selector : List Nat :=
  [1, 2, 3, 4]

/-- Concrete calldata for the C4 counterexample: `txBatchVersion = 0`,
`txBatch = [1, 2, 3]`. -/
def c4Data : List Nat :=
  encode_append_tx_batch c4Selector 0 [1, 2, 3]

/-- The buffered-batch classification loop inside `SpecularBatches::try_next`
(the `loop` over `first_key_value`): the buffer is the `BTreeMap` contents
in ascending timestamp order; a dropped batch is removed and the loop
continues, an accepted batch is removed and returned. -/
def try_next_loop (cfg : ChainConfig) (oracleSelector : List Nat)
    (decodeTx : RawTransaction → Option DecodedTx) (state : State) :
    List SpecularBatchV0 → Except CheckErr (Option SpecularBatchV0)
  | [] => Except.ok none
  | b :: rest =>
    match batch_status cfg oracleSelector decodeTx state b with
    | Except.error e => Except.error e
    | Except.ok BatchStatus.Accept => Except.ok (some b)
    | Except.ok BatchStatus.Drop =>
        try_next_loop cfg oracleSelector decodeTx state rest

/-- The empty-batch generation at the tail of `SpecularBatches::try_next`:
when no buffered batch was accepted, an empty batch is produced exactly when
the sequencing window has elapsed and the next epoch is known in State. -/
def generate_empty_batch (cfg : ChainConfig) (state : State) : Option Batch :=
  let current_l1_block := state.current_epoch_num
  let safe_head := state.safe_head
  let epoch := state.safe_epoch
  match epoch_by_number state (epoch.number + 1) with
  | some next_epoch =>
      if current_l1_block > epoch.number + cfg.seq_window_size then
        let next_ts := safe_head.timestamp + cfg.blocktime
        let e := if next_ts < next_epoch.timestamp then epoch else next_epoch
        some { epoch_num := e.number, epoch_hash := e.hash, parent_hash := 0,
               timestamp := next_ts, transactions := [],
               l1_inclusion_block := current_l1_block }
      else none
  | none => none

/-- `SpecularBatches::try_next` after the one-step upstream ingestion (the
decoded batches already sit in `buffer`): classify buffered batches, and if
none is accepted fall back to empty-batch generation. -/
def try_next (cfg : ChainConfig) (oracleSelector : List Nat)
    (decodeTx : RawTransaction → Option DecodedTx) (state : State)
    (buffer : List SpecularBatchV0) : Except CheckErr (Option Batch) :=
  match try_next_loop cfg oracleSelector decodeTx state buffer with
  | Except.error e => Except.error e
  | Except.ok (some b) => Except.ok (some (batch_of_v0 b))
  | Except.ok none => Except.ok (generate_empty_batch cfg state)

/-- Wrapping `u64` subtraction (release-build semantics of `a - b`). -/
def wsub (a b : Nat) : Nat :=
  (a + 2 ^ 64 - b % 2 ^ 64) % 2 ^ 64

/-- Wrapping `u64` multiplication. -/
def wmul (a b : Nat) : Nat :=
  a * b % 2 ^ 64

/-- Wrapping `u64` addition. -/
def wadd (a b : Nat) : Nat :=
  (a + b) % 2 ^ 64

/-- One RLP batch list of a version-0 batcher transaction, as the external
RLP container decoder delivers it to `decode_batches_v0`: the epoch-update
indicator byte (`val_at(0)`), the first L2 block number (`val_at(1)`), the
epoch number and hash when decodable (`val_at(2)`, `val_at(3)`; `none`
models their RLP failure), and the per-block transaction lists. -/
structure BatchListV0 where
  epoch_indicator : Nat
  first_l2_block_num : Nat
  epoch_fields : Option (Nat × Nat)
  blocks : List (List RawTransaction)
  deriving DecidableEq, Repr

/-- RLP decode failure surfaced by `decode_batches_v0` (`val_at(..)?`). -/
inductive DecodeErr where
  | rlp
  deriving DecidableEq, Repr

/-- The per-batch-list body of `decode_batches_v0`
(src/specular/stages/batches.rs): the first L2 block timestamp is
`(first_l2_block_num - safe_l2_num) * blocktime + safe_l2_ts` in unchecked
`u64` arithmetic, modelled with the wrapping operations. -/
def decode_batch_list_v0 (blocktime : Nat) (state : State)
    (l1_inclusion_block : Nat) (bl : BatchListV0) :
    Except DecodeErr (List SpecularBatchV0) :=
  let is_epoch_update : Bool := decide (bl.epoch_indicator = 0)
  let safe_l2_num := state.safe_head.number
  let safe_l2_ts := state.safe_head.timestamp
  let first_l2_block_timestamp :=
    wadd (wmul (wsub bl.first_l2_block_num safe_l2_num) blocktime) safe_l2_ts
  match
    (if is_epoch_update then bl.epoch_fields
    else some (state.safe_epoch.number, state.safe_epoch.hash)) with
  | none => Except.error DecodeErr.rlp
  | some (epoch_num, epoch_hash) =>
    Except.ok (bl.blocks.enum.map (fun p =>
      { epoch_num := epoch_num, epoch_hash := epoch_hash,
        timestamp := wadd first_l2_block_timestamp (wmul p.1 blocktime),
        transactions := p.2,
        l2_block_number := wadd bl.first_l2_block_num p.1,
        l1_inclusion_block := l1_inclusion_block,
        is_epoch_update := decide (p.1 = 0) && is_epoch_update }))

/-- `decode_batches_v0` over the batch lists of one batcher transaction
(`batcher_tx.l1_inclusion_block` passed explicitly). -/
def decode_batches_v0 (blocktime : Nat) (state : State)
    (l1_inclusion_block : Nat) :
    List BatchListV0 → Except DecodeErr (List SpecularBatchV0)
  | [] => Except.ok []
  | bl :: rest =>
    match decode_batch_list_v0 blocktime state l1_inclusion_block bl with
    | Except.error e => Except.error e
    | Except.ok bs =>
      match decode_batches_v0 blocktime state l1_inclusion_block rest with
      | Except.error e => Except.error e
      | Except.ok bs2 => Except.ok (bs ++ bs2)

/-- State for the C10 underflow input: the safe head is L2 block 5 at
timestamp 1000. -/
def c10State : State :=
  { l1_info_by_number_map := (fun _ => none),
    l1_info_by_hash_map := (fun _ => none),
    current_epoch_num := 0,
    safe_head := { number := 5, hash := 50, parent_hash := 49, timestamp := 1000 },
    safe_epoch := { number := 4, hash := 44, timestamp := 900 } }

/-- The C10 underflow batch list: its first L2 block number 3 lies below the
safe head number 5. -/
def c10BatchList : BatchListV0 :=
  { epoch_indicator := 1, first_l2_block_num := 3, epoch_fields := none,
    blocks := [[[1]]] }

/-- The batch `decode_batches_v0` produces from `c10BatchList`: the wrapped
timestamp 996 = ((3 + 2^64 − 5) · 2 + 1000) mod 2^64. -/
def c10Expected : SpecularBatchV0 :=
  { epoch_num := 4, epoch_hash := 44, timestamp := 996, l2_block_number := 3,
    transactions := [[1]], l1_inclusion_block := 12, is_epoch_update := false }

/-- The state the `Attributes` stage holds across calls
(`derive::stages::attributes::Attributes`, fields `sequence_number` and
`epoch_hash`). -/
structure AttributesStage where
  sequence_number : Nat
  epoch_hash : Nat
  deriving DecidableEq, Repr

/-- `Attributes::update_sequence_number`. -/
def update_sequence_number (st : AttributesStage) (batch_epoch_hash : Nat) :
    AttributesStage :=
  if st.epoch_hash ≠ batch_epoch_hash then
    { sequence_number := 0, epoch_hash := batch_epoch_hash }
  else
    { sequence_number := st.sequence_number + 1, epoch_hash := batch_epoch_hash }

/-- `Attributes::purge` (after propagating purge upstream): reset the
sequence number and seed the epoch hash from the State's safe epoch. -/
def attributes_purge (state : State) : AttributesStage :=
  { sequence_number := 0, epoch_hash := state.safe_epoch.hash }

/-- Panics of `Attributes::derive_attributes`: the `unwrap` on a missing
L1 info and the `unwrap` on a non-Optimism system configuration. -/
inductive AttrPanic where
  | l1InfoMissing
  | noOptimismSystemConfig
  deriving DecidableEq, Repr

/-- `Attributes::derive_attributes`: updates the held sequence state, then
builds the payload attributes for a batch. `fee_vault` is
`SystemAccounts::default().fee_vault` and `deriveTxs` the external
`TransactionDeriver` (both collaborators outside the given files). -/
def derive_attributes (fee_vault : Nat)
    (deriveTxs : Nat → Nat → Batch → L1Info → List RawTransaction)
    (st : AttributesStage) (state : State) (batch : Batch) :
    Except AttrPanic (AttributesStage × PayloadAttributes) :=
  let st2 := update_sequence_number st batch.epoch_hash
  match l1_info_by_hash state batch.epoch_hash with
  | none => Except.error AttrPanic.l1InfoMissing
  | some l1_info =>
    match l1_info.system_config_gas_limit with
    | none => Except.error AttrPanic.noOptimismSystemConfig
    | some gl =>
      Except.ok (st2,
        { timestamp := batch.timestamp,
          prev_randao := l1_info.block_info.mix_hash,
          suggested_fee_recipient := fee_vault,
          transactions :=
            some (deriveTxs st2.sequence_number st2.epoch_hash batch l1_info),
          no_tx_pool := true,
          gas_limit := gl,
          epoch := some { number := batch.epoch_num, hash := batch.epoch_hash,
                          timestamp := l1_info.block_info.timestamp },
          l1_inclusion_block := some batch.l1_inclusion_block,
          seq_number := some st2.sequence_number })

/-- The locally retrieved L2 block fields `should_skip` compares against
(`ethers::types::Block<Transaction>`): the transaction hash list (the
`tx.hash()` of each transaction), and the optional `mix_hash` and `author`
whose absence panics the `unwrap`s. -/
structure LocalBlock where
  tx_hashes : List Nat
  timestamp : Nat
  mix_hash : Option Nat
  author : Option Nat
  gas_limit : Nat
  deriving DecidableEq, Repr

/-- Panics of `should_skip`: the `unwrap` on missing attribute transactions
and the `unwrap`s on the block's missing `mix_hash`/`author`. -/
inductive SkipPanic where
  | transactionsUnwrapNone
  | mixHashUnwrapNone
  | authorUnwrapNone
  deriving DecidableEq, Repr

/-- `should_skip` (src/driver/engine_driver.rs): payload-equivalence of a
local block and derived attributes. `keccak` is the external keccak-256 of
a raw transaction's bytes; the `&&` chain short-circuits, so an `unwrap`
panics only when every earlier comparison succeeded. -/
def should_skip (keccak : RawTransaction → Nat) (block : LocalBlock)
    (attributes : PayloadAttributes) : Except SkipPanic Bool :=
  match attributes.transactions with
  | none => Except.error SkipPanic.transactionsUnwrapNone
  | some txs =>
    let attributes_hashes := txs.map keccak
    let block_hashes := block.tx_hashes
    if attributes_hashes ≠ block_hashes then Except.ok false
    else if attributes.timestamp ≠ block.timestamp then Except.ok false
    else
      match block.mix_hash with
      | none => Except.error SkipPanic.mixHashUnwrapNone
      | some mh =>
        if attributes.prev_randao ≠ mh then Except.ok false
        else
          match block.author with
          | none => Except.error SkipPanic.authorUnwrapNone
          | some au =>
            if attributes.suggested_fee_recipient ≠ au then Except.ok false
            else Except.ok (decide (attributes.gas_limit = block.gas_limit))

/-- The block tag the validator's simulation call carries. -/
inductive BlockTag where
  | latest
  | pending
  deriving DecidableEq, Repr

/-- `specular::sequencing::validator::AttributesValidator` (provider held
externally; only the sticky `should_skip` flag is state). -/
structure AttributesValidator where
  should_skip : Bool
  deriving DecidableEq, Repr

/-- Failures of `should_skip_attributes`: the missing sequence number error
of `update_epoch`, a propagated RLP decode failure, and the `expect` panics
on a transaction without `to` or `gas_price`. -/
inductive ValidatorErr where
  | noSeqNumber
  | decodeFailed
  | panicToMissing
  | panicGasPriceMissing
  deriving DecidableEq, Repr

/-- `AttributesValidator::update_epoch`: reports whether the attributes
start a new epoch (`seq_number == 0`) and resets the sticky flag when they
do. -/
def update_epoch (v : AttributesValidator) (attributes : PayloadAttributes) :
    Except ValidatorErr (AttributesValidator × Bool) :=
  match attributes.seq_number with
  | none => Except.error ValidatorErr.noSeqNumber
  | some n =>
    let epoch_changed : Bool := decide (n = 0)
    let v2 := if epoch_changed then { should_skip := false } else v
    Except.ok (v2, epoch_changed)

/-- The L1 block of the C5 witness entry. -/
def c5InfoBlock : L1BlockInfo :=
  { number := 9, hash := 77, timestamp := 500, base_fee := 3, mix_hash := 66,
    state_root := 5 }

/-- The L1 info entry of the C5 witness, found at hash 77. -/
def c5Info : L1Info :=
  { block_info := c5InfoBlock, system_config_gas_limit := some 30000000 }

/-- The State of the C5 witness. -/
def c5State : State :=
  { l1_info_by_number_map := (fun _ => none),
    l1_info_by_hash_map := (fun h => if h = 77 then some c5Info else none),
    current_epoch_num := 0,
    safe_head := { number := 0, hash := 0, parent_hash := 0, timestamp := 0 },
    safe_epoch := { number := 1, hash := 11, timestamp := 100 } }

/-- The held stage state of the C5 witness: epoch hash 42, sequence 3. -/
def c5St : AttributesStage :=
  { sequence_number := 3, epoch_hash := 42 }

/-- The batch of the C5 witness: its epoch hash 77 differs from the held
42, so the emitted sequence number must reset to 0. -/
def c5Batch : Batch :=
  { epoch_num := 9, epoch_hash := 77, parent_hash := 0, timestamp := 2002,
    transactions := [[1]], l1_inclusion_block := 12 }

/-- The external transaction deriver of the C5 witness. -/
def c5Derive : Nat → Nat → Batch → L1Info → List RawTransaction :=
  fun _ _ _ _ => []

/-- The stage state expected after the C5 witness batch. -/
def c5ExpectedStage : AttributesStage :=
  { sequence_number := 0, epoch_hash := 77 }

/-- The attributes expected from the C5 witness batch. -/
def c5ExpectedAttrs : PayloadAttributes :=
  { timestamp := 2002, prev_randao := 66, suggested_fee_recipient := 123,
    transactions := some [], no_tx_pool := true, gas_limit := 30000000,
    epoch := some { number := 9, hash := 77, timestamp := 500 },
    l1_inclusion_block := some 12, seq_number := some 0 }

/-- The chain configuration of the C6 witness. -/
def c6Cfg : ChainConfig :=
  { blocktime := 2, seq_window_size := 10, l1_oracle := 500 }

/-- The L1 block the C6 witness State stores at number 5 (the epoch after
the safe epoch 4). -/
def c6InfoBlock : L1BlockInfo :=
  { number := 5, hash := 55, timestamp := 2500, base_fee := 1, mix_hash := 2,
    state_root := 3 }

/-- The C6 witness State entry wrapping `c6InfoBlock`. -/
def c6Info : L1Info :=
  { block_info := c6InfoBlock, system_config_gas_limit := none }

/-- The State of the C6 witness: the sequencing window has elapsed
(current 20 > 4 + 10) and epoch 5 is known. -/
def c6State : State :=
  { l1_info_by_number_map := (fun n => if n = 5 then some c6Info else none),
    l1_info_by_hash_map := (fun _ => none),
    current_epoch_num := 20,
    safe_head := { number := 100, hash := 1000, parent_hash := 999, timestamp := 2000 },
    safe_epoch := { number := 4, hash := 44, timestamp := 900 } }

/-- A transaction decoder that always fails, for the C6 witness (the empty
buffer never reaches it). -/
def c6DecodeTx : RawTransaction → Option DecodedTx :=
  fun _ => none

/-- The external keccak-256 of the C7 witness. -/
def c7Keccak : RawTransaction → Nat :=
  fun tx => tx.length + 100

/-- The local block of the C7 witness: every field matches `c7Attrs`. -/
def c7Block : LocalBlock :=
  { tx_hashes := [101], timestamp := 5, mix_hash := some 7, author := some 8,
    gas_limit := 30 }

/-- The attributes of the C7 witness. -/
def c7Attrs : PayloadAttributes :=
  { timestamp := 5, prev_randao := 7, suggested_fee_recipient := 8,
    transactions := some [[9]], no_tx_pool := true, gas_limit := 30,
    epoch := none, l1_inclusion_block := none, seq_number := none }

/-- `AttributesValidator::should_skip_attributes`: on an epoch change with a
top-of-block transaction, decode it and simulate it with a `pending`-tagged
`eth_call` (`ethCall`; `none` covers both an execution failure and a
transport error), and set the sticky flag to the failure of that call. -/
def should_skip_attributes
    (decodeTx : RawTransaction → Option DecodedTx)
    (ethCall : DecodedTx → BlockTag → Option (List Nat))
    (v : AttributesValidator) (attributes : PayloadAttributes) :
    Except ValidatorErr (AttributesValidator × Bool) :=
  match update_epoch v attributes with
  | Except.error e => Except.error e
  | Except.ok (v2, epoch_changed) =>
    if epoch_changed then
      match attributes.transactions with
      | some (raw_tx :: _) =>
        match decodeTx raw_tx with
        | none => Except.error ValidatorErr.decodeFailed
        | some tx =>
          match tx.to_addr with
          | none => Except.error ValidatorErr.panicToMissing
          | some _ =>
            match tx.gas_price with
            | none => Except.error ValidatorErr.panicGasPriceMissing
            | some _ =>
              let res := ethCall tx BlockTag.pending
              let v3 : AttributesValidator := { should_skip := res.isNone }
              Except.ok (v3, v3.should_skip)
      | _ => Except.ok (v2, v2.should_skip)
    else Except.ok (v2, v2.should_skip)

end Magi

namespace Magi

theorem natToBytes_length (n v : Nat) : (natToBytes n v).length = n := by
  induction n generalizing v with
  | zero => rfl
  | succ n ih => simp [natToBytes, ih]

theorem bytesToNat_append_singleton (l : List Nat) (b : Nat) :
    bytesToNat (l ++ [b]) = bytesToNat l * 256 + b := by
  simp [bytesToNat, List.foldl_append]

theorem bytesToNat_natToBytes (n v : Nat) :
    bytesToNat (natToBytes n v) = v % 256 ^ n := by
  induction n generalizing v with
  | zero => simp [natToBytes, bytesToNat, Nat.mod_one]
  | succ n ih =>
      rw [natToBytes, bytesToNat_append_singleton, ih, pow_succ]
      have h1 : v / 256 % 256 ^ n = v % (256 * 256 ^ n) / 256 :=
        (Nat.mod_mul_right_div_self v 256 (256 ^ n)).symm
      have h2 : (256 : Nat) ∣ 256 ^ n * 256 := dvd_mul_left 256 (256 ^ n)
      have h3 : v % (256 ^ n * 256) % 256 = v % 256 := Nat.mod_mod_of_dvd v h2
      have h4 := Nat.div_add_mod (v % (256 ^ n * 256)) 256
      rw [Nat.mul_comm 256 (256 ^ n)] at h1
      omega

theorem bytesToNat_word32 (v : Nat) (h : v < 2 ^ 256) :
    bytesToNat (word32 v) = v := by
  rw [word32, bytesToNat_natToBytes]
  have h256 : (256 : Nat) ^ 32 = 2 ^ 256 := by norm_num
  rw [h256]
  exact Nat.mod_eq_of_lt h

theorem word32_length (v : Nat) : (word32 v).length = 32 :=
  natToBytes_length 32 v

/-- C1 counterexample: with `next_l2_ts = 22` exceeding the drift bound
`0 + 10`, and the next L1 epoch present with timestamp `30 > 22`,
`find_next_origin` chooses the parent epoch, not the next one as the claim
demands. -/
theorem c1_find_next_origin_counterexample :
    next_timestamp c1Config c1ParentBlock.timestamp >
        next_drift_bound c1Config c1ParentEpoch ∧
      find_next_origin c1Config c1ParentBlock c1ParentEpoch (some c1NextEpoch) =
        Except.ok c1ParentEpoch ∧
      c1ParentEpoch ≠ c1NextEpoch := by
  decide

/-- C1 (amended): when the next L1 epoch is known, the chosen origin is the
next epoch exactly when the next L2 timestamp has reached its timestamp and
the parent epoch otherwise, regardless of the drift bound; when it is not
known, the call fails with `DriftBoundExceeded` exactly when the next L2
timestamp exceeds `parent_l1_epoch.timestamp + max_seq_drift`, and the
chosen origin is the parent epoch otherwise. `get_attributes` propagates
the same selection into the attributes' epoch. -/
theorem c1_find_next_origin_characterization (cfg : SeqConfig)
    (p : BlockInfo) (e : L1BlockInfo) (n : Option L1BlockInfo)
    (signTx : L1BlockInfo → Except SeqErr RawTransaction) :
    (find_next_origin cfg p e n =
      match n with
      | some nextEpoch =>
          if p.timestamp + cfg.blocktime ≥ nextEpoch.timestamp then
            Except.ok nextEpoch
          else Except.ok e
      | none =>
          if p.timestamp + cfg.blocktime > e.timestamp + cfg.max_seq_drift then
            Except.error SeqErr.driftBoundExceeded
          else Except.ok e) ∧
    ((get_attributes cfg signTx p e n).map (fun a => a.epoch) =
      (find_next_origin cfg p e n).map (fun origin => some (create_epoch origin)) ∨
      ∃ err, get_attributes cfg signTx p e n = Except.error err) := by
  constructor
  · cases n with
    | none =>
        simp only [find_next_origin, next_timestamp, next_drift_bound]
        by_cases h : p.timestamp + cfg.blocktime > e.timestamp + cfg.max_seq_drift
        · simp [h]
        · simp [h]
    | some nextEpoch => rfl
  · unfold get_attributes
    cases hfo : find_next_origin cfg p e n with
    | error err => exact Or.inr ⟨err, rfl⟩
    | ok origin =>
        cases hc : create_l1_oracle_update_transaction signTx e origin with
        | error err => exact Or.inr ⟨err, by simp [hc]⟩
        | ok txs => exact Or.inl (by simp [hc, Except.map])

/-- C9: `is_ready` is true exactly when the safe head is within the maximum
safe lag of the parent L2 block and the next timestamp is not in the
future. -/
theorem c9_is_ready_iff (cfg : SeqConfig) (parent_l2_block safe_l2_head : BlockInfo)
    (now : Nat) :
    is_ready cfg parent_l2_block safe_l2_head now = true ↔
      (safe_l2_head.number + cfg.max_safe_lag > parent_l2_block.number ∧
        parent_l2_block.timestamp + cfg.blocktime ≤ now) := by
  simp [is_ready, next_timestamp]

/-- C3 counterexample: running the `Skip` action with target `Safe` on
`c3Driver` with discovered block `c3Info` (equal to the current safe head)
and attributes' epoch `c3Epoch` leaves the safe epoch unchanged (not set to
the attributes' epoch) and moves the unsafe head (which the claim says is
untouched). -/
theorem c3_skip_safe_counterexample :
    execute_action_skip c3Attrs c3Info ChainHead.Safe c3Driver =
        Except.ok (update_safe_head c3Driver c3Info c3Epoch false) ∧
      (update_safe_head c3Driver c3Info c3Epoch false).safe_epoch ≠ c3Epoch ∧
      (update_safe_head c3Driver c3Info c3Epoch false).unsafe_head ≠
        c3Driver.unsafe_head := by
  decide

/-- C3 (amended): the `Skip` action with target `Safe` sets the safe head to
the discovered block; the safe epoch becomes the attributes' epoch unless
the discovered block equals the current safe head (then it is kept); when
the resulting safe head's number exceeds the unsafe head's number, the
unsafe head and epoch are reorged onto the new safe head and epoch, and are
untouched otherwise; the finalized head and epoch are never touched. -/
theorem c3_skip_safe_characterization (d : EngineDriverState)
    (attrs : PayloadAttributes) (info : BlockInfo) (ε : Epoch) :
    (execute_action_skip { attrs with epoch := some ε } info ChainHead.Safe d =
        Except.ok (update_safe_head d info ε false)) ∧
      (update_safe_head d info ε false).safe_head = info ∧
      (update_safe_head d info ε false).safe_epoch =
        (if d.safe_head = info then d.safe_epoch else ε) ∧
      (update_safe_head d info ε false).unsafe_head =
        (if d.unsafe_head.number < info.number then info else d.unsafe_head) ∧
      (update_safe_head d info ε false).unsafe_epoch =
        (if d.unsafe_head.number < info.number then
          (if d.safe_head = info then d.safe_epoch else ε)
        else d.unsafe_epoch) ∧
      (update_safe_head d info ε false).finalized_head = d.finalized_head ∧
      (update_safe_head d info ε false).finalized_epoch = d.finalized_epoch := by
  refine ⟨rfl, ?_⟩
  unfold update_safe_head update_unsafe_head
  by_cases heq : d.safe_head = info <;>
    by_cases hlt : d.unsafe_head.number < info.number <;>
      simp [heq, hlt]

/-- C4 counterexample: decoding the `appendTxBatch` call with
`txBatchVersion = 0` and `txBatch = [1, 2, 3]` yields a
`SpecularBatcherTransaction` whose `version` is the decoded uint256
argument `0` — not `tx_batch[0] = 1` — and whose `tx_batch` is the whole
decoded bytes `[1, 2, 3]` — not the remainder `[2, 3]`. -/
theorem c4_batcher_transaction_counterexample :
    decode_append_tx_batch c4Selector c4Data = Except.ok (0, [1, 2, 3]) ∧
      SpecularBatcherTransaction.new c4Selector c4Data =
        Except.ok { version := 0, tx_batch := [1, 2, 3] } ∧
      (0 : Nat) ≠ 1 ∧ ([1, 2, 3] : List Nat) ≠ [2, 3] := by
  decide

/-- C4 (amended): for calldata that ABI-encodes
`appendTxBatch(txBatchVersion, txBatch)`, the constructed
`SpecularBatcherTransaction` has `version` equal to the decoded
`txBatchVersion` argument (cast to u64) and `tx_batch` equal to the entire
decoded `txBatch` bytes. -/
theorem c4_batcher_transaction_round_trip (selector : List Nat) (version : Nat)
    (b : List Nat) (hsel : selector.length = 4) (hv : version < 2 ^ 64)
    (hb : b.length < 2 ^ 256) :
    SpecularBatcherTransaction.new selector
        (encode_append_tx_batch selector version b) =
      Except.ok { version := version, tx_batch := b } := by
  have hv256 : version < 2 ^ 256 := lt_of_lt_of_le hv (by norm_num)
  have h64 : (64 : Nat) < 2 ^ 256 := by norm_num
  set tail3 : List Nat := word32 b.length ++ b with htail3
  set tail2 : List Nat := word32 64 ++ tail3 with htail2
  set tail1 : List Nat := word32 version ++ tail2 with htail1
  have hdata : encode_append_tx_batch selector version b = selector ++ tail1 := by
    simp [encode_append_tx_batch, htail1, htail2, htail3]
  have hlen1 : tail1.length = 96 + b.length := by
    simp [htail1, htail2, htail3, word32_length]
    omega
  have htake4 : (selector ++ tail1).take 4 = selector := by
    rw [← hsel]; exact List.take_left selector tail1
  have hdrop4 : (selector ++ tail1).drop 4 = tail1 := by
    rw [← hsel]; exact List.drop_left selector tail1
  have htakev : tail1.take 32 = word32 version := by
    rw [htail1, ← word32_length version]; exact List.take_left _ _
  have hdropv : tail1.drop 32 = tail2 := by
    rw [htail1, ← word32_length version]; exact List.drop_left _ _
  have htake64 : tail2.take 32 = word32 64 := by
    rw [htail2, ← word32_length 64]; exact List.take_left _ _
  have hdrop64 : tail2.drop 32 = tail3 := by
    rw [htail2, ← word32_length 64]; exact List.drop_left _ _
  have hdrop64' : tail1.drop 64 = tail3 := by
    have h : tail1.drop 64 = (tail1.drop 32).drop 32 := by
      rw [List.drop_drop]
    rw [h, hdropv, hdrop64]
  have htakelen : tail3.take 32 = word32 b.length := by
    rw [htail3, ← word32_length b.length]; exact List.take_left _ _
  have hdroplen : tail3.drop 32 = b := by
    rw [htail3, ← word32_length b.length]; exact List.drop_left _ _
  have hdrop96 : tail1.drop 96 = b := by
    have h : tail1.drop 96 = (tail1.drop 64).drop 32 := by
      rw [List.drop_drop]
    rw [h, hdrop64', hdroplen]
  have hlendata : (selector ++ tail1).length = 100 + b.length := by
    simp [hsel, hlen1]
    omega
  have hdec :
      decode_append_tx_batch selector (selector ++ tail1) =
        Except.ok (version, b) := by
    rw [decode_append_tx_batch]
    rw [if_neg (by simp [htake4])]
    simp only [hdrop4, hlen1, htakev, hdropv, htake64,
      bytesToNat_word32 version hv256, bytesToNat_word32 64 h64]
    rw [if_neg (by omega)]
    have h96 : (64 : Nat) + 32 = 96 := rfl
    rw [if_neg (by omega)]
    simp only [hdrop64', htakelen, bytesToNat_word32 b.length hb, h96, hdrop96]
    rw [if_neg (by omega), List.take_length]
  rw [hdata, SpecularBatcherTransaction.new]
  rw [if_neg (by omega), if_neg (by simp [htake4])]
  rw [SpecularBatcherTransaction.tryFrom, hdec]
  simp [hv]
  omega

/-- C4 witness: the round trip at `version = 5`, `txBatch = [9, 8]`. -/
theorem c4_batcher_transaction_round_trip_witness :
    SpecularBatcherTransaction.new c4Selector
        (encode_append_tx_batch c4Selector 5 [9, 8]) =
      Except.ok { version := 5, tx_batch := [9, 8] } :=
  c4_batcher_transaction_round_trip c4Selector 5 [9, 8] (by decide)
    (by norm_num) (by norm_num)

theorem all_not_isEmpty (l : List RawTransaction) :
    l.all (fun tx => !tx.isEmpty) = !l.any (fun tx => tx.isEmpty) := by
  induction l with
  | nil => rfl
  | cons hd tl ih => simp [List.all_cons, List.any_cons, ih, Bool.not_or]

theorem check_epoch_update_batch_ok_iff (cfg : ChainConfig) (sel : List Nat)
    (decodeTx : RawTransaction → Option DecodedTx) (state : State)
    (batch : SpecularBatchV0)
    (hnp : check_epoch_update_batch cfg sel decodeTx state batch ≠
      Except.error CheckErr.panicU64) :
    (check_epoch_update_batch cfg sel decodeTx state batch = Except.ok ()) ↔
      (claim_oracle_update_matches cfg sel decodeTx state batch &&
        oracle_update_consistent_with_batch sel decodeTx batch) = true := by
  obtain ⟨en, eh, bts, bn, txs, incl, iep⟩ := batch
  unfold claim_oracle_update_matches oracle_update_consistent_with_batch
  unfold check_epoch_update_batch
  cases txs with
  | nil => simp
  | cons tx0 rest =>
    cases hdtx : decodeTx tx0 with
    | none => simp [hdtx]
    | some tx =>
      cases hto : tx.to_addr with
      | none => simp [hdtx, hto]
      | some toAddr =>
        by_cases htoeq : toAddr = cfg.l1_oracle
        · cases hdec : decode_set_l1_oracle_values sel tx.input with
          | error e => simp [hdtx, hto, htoeq, hdec]
          | ok vals =>
            obtain ⟨n, ts, fee, h, sr⟩ := vals
            by_cases hn : 2 ^ 64 ≤ n
            · refine absurd ?_ hnp
              norm_num at hn
              have hn2 : (18446744073709551616 : Nat) ≤ n := by omega
              simp [check_epoch_update_batch, hdtx, hto, htoeq, hdec, hn2]
            · cases hlk : l1_info_by_number state n with
              | none =>
                  simp only [hdtx, hto, htoeq, hdec, hlk]
                  split_ifs <;> simp_all
              | some info =>
                  by_cases hts64 : 2 ^ 64 ≤ ts
                  · by_cases hne : n = en
                    · by_cases hhe : h = eh
                      · by_cases hhi : h = info.block_info.hash
                        · refine absurd ?_ hnp
                          norm_num at hn hts64
                          have hn2 : ¬ (18446744073709551616 : Nat) ≤ n := by
                            omega
                          have hts2 : (18446744073709551616 : Nat) ≤ ts := by
                            omega
                          simp [check_epoch_update_batch, hdtx, hto, htoeq,
                            hdec, hlk, ← hne, ← hhe, hhi, hn2, hts2]
                        · simp only [hdtx, hto, htoeq, hdec, hlk]
                          split_ifs <;> simp_all
                      · simp only [hdtx, hto, htoeq, hdec, hlk]
                        split_ifs <;> simp_all
                    · simp only [hdtx, hto, htoeq, hdec, hlk]
                      split_ifs <;> simp_all
                  · simp only [hdtx, hto, htoeq, hdec, hlk]
                    split_ifs <;> simp_all
        · simp [hdtx, hto, htoeq]

set_option maxRecDepth 10000 in
/-- C2 counterexample: `c2Batch` satisfies every condition the claim lists
(timestamp, block number, inclusion window, non-empty transactions, and an
oracle-update transaction whose calldata exactly matches the stored
`L1BlockInfo` at its epoch number), yet `batch_status` drops it, because
the code additionally requires the calldata's epoch hash to equal the
batch's own `epoch_hash` field (99 ≠ 77). -/
theorem c2_batch_status_counterexample :
    c2_claim_accepts c2Cfg c2OracleSelector c2DecodeTx c2State c2Batch = true ∧
      batch_status c2Cfg c2OracleSelector c2DecodeTx c2State c2Batch =
        Except.ok BatchStatus.Drop := by
  decide

/-- C2 (amended): provided the epoch-update check does not hit the
`U256::as_u64` panic (decoded epoch number or timestamp over `u64::MAX`,
which unwinds instead of classifying), `batch_status` returns `Accept`
exactly under the claim's conditions strengthened by the code's two batch
consistency checks (calldata epoch number = batch `epoch_num` and calldata
epoch hash = batch `epoch_hash`), and `Drop` in every other case. -/
theorem c2_batch_status_characterization (cfg : ChainConfig) (sel : List Nat)
    (decodeTx : RawTransaction → Option DecodedTx) (state : State)
    (batch : SpecularBatchV0)
    (hnp : check_epoch_update_batch cfg sel decodeTx state batch ≠
      Except.error CheckErr.panicU64) :
    batch_status cfg sel decodeTx state batch =
      Except.ok
        (if c2_amended_accepts cfg sel decodeTx state batch then
          BatchStatus.Accept
        else BatchStatus.Drop) := by
  have hiff := check_epoch_update_batch_ok_iff cfg sel decodeTx state batch hnp
  have hcases :
      check_epoch_update_batch cfg sel decodeTx state batch = Except.ok () ∨
        check_epoch_update_batch cfg sel decodeTx state batch =
          Except.error CheckErr.bail := by
    cases hc : check_epoch_update_batch cfg sel decodeTx state batch with
    | ok u => cases u; exact Or.inl rfl
    | error e =>
        cases e with
        | bail => exact Or.inr rfl
        | panicU64 => exact absurd hc hnp
  unfold batch_status c2_amended_accepts
  by_cases h1 : batch.timestamp = state.safe_head.timestamp + cfg.blocktime
  · by_cases h2 : batch.l2_block_number = state.safe_head.number + 1
    · by_cases h3 :
        batch.epoch_num + cfg.seq_window_size < batch.l1_inclusion_block
      · simp [h1, h2, h3, Nat.not_le.mpr h3]
      · by_cases hiep : batch.is_epoch_update
        · rcases hcases with hok | hbail
          · have hbools := hiff.mp hok
            by_cases hmem : ([] : RawTransaction) ∈ batch.transactions
            · have hall : ¬ ∀ x ∈ batch.transactions, ¬ x = [] :=
                fun hall => hall [] hmem rfl
              simp [h1, h2, h3, Nat.le_of_not_lt h3, hiep, hok, hbools,
                has_invalid_transactions, hmem, hall]
            · have hall : ∀ x ∈ batch.transactions, ¬ x = [] :=
                fun x hx hxe => hmem (hxe ▸ hx)
              simp [h1, h2, h3, Nat.le_of_not_lt h3, hiep, hok, hbools,
                has_invalid_transactions, hmem, hall]
              exact (if_pos hall).symm
          · have hbools :
                (claim_oracle_update_matches cfg sel decodeTx state batch &&
                  oracle_update_consistent_with_batch sel decodeTx batch) = false := by
              cases hb :
                (claim_oracle_update_matches cfg sel decodeTx state batch &&
                  oracle_update_consistent_with_batch sel decodeTx batch) with
              | false => rfl
              | true => exact absurd (hiff.mpr hb) (by simp [hbail])
            simp [h1, h2, h3, Nat.le_of_not_lt h3, hiep, hbail, hbools]
        · by_cases hmem : ([] : RawTransaction) ∈ batch.transactions
          · have hall : ¬ ∀ x ∈ batch.transactions, ¬ x = [] :=
              fun hall => hall [] hmem rfl
            simp [h1, h2, h3, Nat.le_of_not_lt h3, hiep,
              has_invalid_transactions, hmem, hall]
          · have hall : ∀ x ∈ batch.transactions, ¬ x = [] :=
              fun x hx hxe => hmem (hxe ▸ hx)
            simp [h1, h2, h3, Nat.le_of_not_lt h3, hiep,
              has_invalid_transactions, hmem, hall]
            exact (if_pos hall).symm
    · simp [h1, h2]
  · simp [h1]

set_option maxRecDepth 10000 in
/-- C2 witness: the characterization at the concrete accepting input
`c2BatchGood` (the panic-freedom hypothesis is discharged by
computation). -/
theorem c2_batch_status_characterization_witness :
    batch_status c2Cfg c2OracleSelector c2DecodeTx c2State c2BatchGood =
      Except.ok
        (if c2_amended_accepts c2Cfg c2OracleSelector c2DecodeTx c2State
            c2BatchGood then
          BatchStatus.Accept
        else BatchStatus.Drop) :=
  c2_batch_status_characterization c2Cfg c2OracleSelector c2DecodeTx c2State
    c2BatchGood (by decide)

theorem update_sequence_number_spec (st : AttributesStage) (h : Nat) :
    ((update_sequence_number st h).sequence_number = 0 ↔ h ≠ st.epoch_hash) ∧
      (h = st.epoch_hash →
        (update_sequence_number st h).sequence_number = st.sequence_number + 1) ∧
      (update_sequence_number st h).epoch_hash = h := by
  unfold update_sequence_number
  by_cases heq : st.epoch_hash = h
  · simp [heq]
  · simp [heq]
    exact fun hc => heq hc.symm

/-- C5: when `derive_attributes` succeeds, the emitted `seq_number` is 0
exactly when the batch's epoch hash differs from the stage's previously
held epoch hash, and is the previous sequence number plus one otherwise;
the held state becomes `update_sequence_number`'s result, whose epoch hash
is the batch's; and `purge` resets the held state to sequence number 0 and
the State's safe-epoch hash. -/
theorem c5_attributes_sequence_number (fee_vault : Nat)
    (deriveTxs : Nat → Nat → Batch → L1Info → List RawTransaction)
    (st : AttributesStage) (state : State) (batch : Batch)
    (st2 : AttributesStage) (attrs : PayloadAttributes)
    (hrun : derive_attributes fee_vault deriveTxs st state batch =
      Except.ok (st2, attrs)) :
    (attrs.seq_number = some 0 ↔ batch.epoch_hash ≠ st.epoch_hash) ∧
      (batch.epoch_hash = st.epoch_hash →
        attrs.seq_number = some (st.sequence_number + 1)) ∧
      st2 = update_sequence_number st batch.epoch_hash ∧
      st2.epoch_hash = batch.epoch_hash ∧
      attributes_purge state =
        { sequence_number := 0, epoch_hash := state.safe_epoch.hash } := by
  unfold derive_attributes at hrun
  cases hlk : l1_info_by_hash state batch.epoch_hash with
  | none => rw [hlk] at hrun; exact absurd hrun (by simp)
  | some l1_info =>
    rw [hlk] at hrun
    cases hgl : l1_info.system_config_gas_limit with
    | none => simp [hgl] at hrun
    | some gl =>
      simp only [hgl] at hrun
      have hpair := Except.ok.inj hrun
      injection hpair with hst2 hattrs
      have hseq : attrs.seq_number =
          some ((update_sequence_number st batch.epoch_hash).sequence_number) := by
        rw [← hattrs]
      obtain ⟨hiff, hsucc, hhash⟩ :=
        update_sequence_number_spec st batch.epoch_hash
      refine ⟨?_, ?_, hst2.symm, ?_, rfl⟩
      · rw [hseq]
        constructor
        · intro hz
          exact hiff.mp (Option.some.inj hz)
        · intro hne
          rw [hiff.mpr hne]
      · intro he
        rw [hseq, hsucc he]
      · rw [← hst2, hhash]

/-- C5 witness: the sequence-number reset at the concrete epoch change
42 → 77. -/
theorem c5_attributes_sequence_number_witness :
    c5ExpectedAttrs.seq_number = some 0 ↔ c5Batch.epoch_hash ≠ c5St.epoch_hash :=
  (c5_attributes_sequence_number 123 c5Derive c5St c5State c5Batch
    c5ExpectedStage c5ExpectedAttrs (by decide)).1

/-- C6: if the classification loop accepted no buffered batch, `try_next`
returns `generate_empty_batch`'s result, which is a batch exactly when the
current L1 number exceeds `safe_epoch.number + seq_window_size` and the
epoch numbered `safe_epoch.number + 1` is known in State; the generated
batch has timestamp `safe_head.timestamp + blocktime`, no transactions,
`l1_inclusion_block = current_epoch_num`, and carries the safe epoch when
that timestamp is before the next epoch's and the next epoch otherwise. -/
theorem c6_try_next_empty_batch (cfg : ChainConfig) (sel : List Nat)
    (decodeTx : RawTransaction → Option DecodedTx) (state : State)
    (buffer : List SpecularBatchV0)
    (hnone : try_next_loop cfg sel decodeTx state buffer = Except.ok none) :
    try_next cfg sel decodeTx state buffer =
        Except.ok (generate_empty_batch cfg state) ∧
      ((generate_empty_batch cfg state).isSome ↔
        (state.current_epoch_num > state.safe_epoch.number + cfg.seq_window_size ∧
          (epoch_by_number state (state.safe_epoch.number + 1)).isSome)) ∧
      (∀ b, generate_empty_batch cfg state = some b →
        b.timestamp = state.safe_head.timestamp + cfg.blocktime ∧
        b.transactions = [] ∧
        b.l1_inclusion_block = state.current_epoch_num ∧
        ∀ ne2, epoch_by_number state (state.safe_epoch.number + 1) = some ne2 →
          (state.safe_head.timestamp + cfg.blocktime < ne2.timestamp →
            b.epoch_num = state.safe_epoch.number ∧
              b.epoch_hash = state.safe_epoch.hash) ∧
          (¬ state.safe_head.timestamp + cfg.blocktime < ne2.timestamp →
            b.epoch_num = ne2.number ∧ b.epoch_hash = ne2.hash)) := by
  refine ⟨?_, ?_, ?_⟩
  · unfold try_next
    simp [hnone]
  · unfold generate_empty_batch
    cases hlk : epoch_by_number state (state.safe_epoch.number + 1) with
    | none => simp [hlk]
    | some ne2 =>
        by_cases hw : state.current_epoch_num >
            state.safe_epoch.number + cfg.seq_window_size
        · simp [hlk, hw]
        · simp [hlk, hw]
  · intro b hb
    unfold generate_empty_batch at hb
    cases hlk : epoch_by_number state (state.safe_epoch.number + 1) with
    | none => simp [hlk] at hb
    | some ne2 =>
        simp only [hlk] at hb
        by_cases hw : state.current_epoch_num >
            state.safe_epoch.number + cfg.seq_window_size
        · rw [if_pos hw] at hb
          by_cases hts : state.safe_head.timestamp + cfg.blocktime < ne2.timestamp
          · rw [if_pos hts] at hb
            have hb2 := Option.some.inj hb
            subst hb2
            refine ⟨rfl, rfl, rfl, ?_⟩
            intro ne3 hne3
            have : ne2 = ne3 := Option.some.inj hne3
            subst this
            exact ⟨fun _ => ⟨rfl, rfl⟩, fun hcon => absurd hts hcon⟩
          · rw [if_neg hts] at hb
            have hb2 := Option.some.inj hb
            subst hb2
            refine ⟨rfl, rfl, rfl, ?_⟩
            intro ne3 hne3
            have : ne2 = ne3 := Option.some.inj hne3
            subst this
            exact ⟨fun hcon => absurd hcon hts, fun _ => ⟨rfl, rfl⟩⟩
        · rw [if_neg hw] at hb
          exact absurd hb (by simp)

/-- C6 witness: at `c6State` (window elapsed, next epoch known, empty
buffer) `try_next` yields the generated empty batch. -/
theorem c6_try_next_empty_batch_witness :
    try_next c6Cfg c2OracleSelector c6DecodeTx c6State [] =
      Except.ok (generate_empty_batch c6Cfg c6State) :=
  (c6_try_next_empty_batch c6Cfg c2OracleSelector c6DecodeTx c6State [] rfl).1

/-- C7: with the block's `mix_hash` and `author` present and the
attributes' transactions present, `should_skip` returns exactly the
conjunction of the five comparisons the claim lists; and when the earlier
comparisons pass, a missing `mix_hash` (or, with it present and matching, a
missing `author`) is a fatal error instead of a boolean result. -/
theorem c7_should_skip_characterization (keccak : RawTransaction → Nat)
    (block : LocalBlock) (attributes : PayloadAttributes)
    (txs : List RawTransaction) (mh au : Nat)
    (htxs : attributes.transactions = some txs)
    (hmh : block.mix_hash = some mh)
    (hau : block.author = some au) :
    should_skip keccak block attributes =
        Except.ok (decide (txs.map keccak = block.tx_hashes ∧
          attributes.timestamp = block.timestamp ∧
          attributes.prev_randao = mh ∧
          attributes.suggested_fee_recipient = au ∧
          attributes.gas_limit = block.gas_limit)) ∧
      (∀ block2 : LocalBlock, block2.tx_hashes = txs.map keccak →
        block2.timestamp = attributes.timestamp →
        block2.mix_hash = none →
        should_skip keccak block2 attributes =
          Except.error SkipPanic.mixHashUnwrapNone) ∧
      (∀ block2 : LocalBlock, block2.tx_hashes = txs.map keccak →
        block2.timestamp = attributes.timestamp →
        block2.mix_hash = some attributes.prev_randao →
        block2.author = none →
        should_skip keccak block2 attributes =
          Except.error SkipPanic.authorUnwrapNone) := by
  refine ⟨?_, ?_, ?_⟩
  · unfold should_skip
    by_cases h1 : txs.map keccak = block.tx_hashes
    · by_cases h2 : attributes.timestamp = block.timestamp
      · by_cases h3 : attributes.prev_randao = mh
        · by_cases h4 : attributes.suggested_fee_recipient = au
          · simp [htxs, hmh, hau, h1, h2, h3, h4]
          · simp [htxs, hmh, hau, h1, h2, h3, h4]
        · simp [htxs, hmh, hau, h1, h2, h3]
      · simp [htxs, h1, h2]
    · simp [htxs, h1]
  · intro b2 hbt hbts hbmh
    unfold should_skip
    simp [htxs, hbt, hbts, hbmh]
  · intro b2 hbt hbts hbmh hba
    unfold should_skip
    simp [htxs, hbt, hbts, hbmh, hba]

/-- C7 witness: the equivalence at a concrete fully matching pair. -/
theorem c7_should_skip_characterization_witness :
    should_skip c7Keccak c7Block c7Attrs =
      Except.ok (decide ([[9]].map c7Keccak = c7Block.tx_hashes ∧
        c7Attrs.timestamp = c7Block.timestamp ∧
        c7Attrs.prev_randao = 7 ∧
        c7Attrs.suggested_fee_recipient = 8 ∧
        c7Attrs.gas_limit = c7Block.gas_limit)) :=
  (c7_should_skip_characterization c7Keccak c7Block c7Attrs [[9]] 7 8
    rfl rfl rfl).1

/-- C8: `should_skip_attributes` returns the stored flag unchanged when
`seq_number ≠ 0`; resets it to `false` when `seq_number = 0` and there is
no top-of-block transaction; and when `seq_number = 0` and a decodable
top-of-block transaction (with `to` and `gas_price` present) exists, sets
the flag to `true` exactly when the `pending`-tagged simulation of that
transaction fails (transport errors included). -/
theorem c8_should_skip_attributes_characterization
    (decodeTx : RawTransaction → Option DecodedTx)
    (ethCall : DecodedTx → BlockTag → Option (List Nat))
    (v : AttributesValidator) (attributes : PayloadAttributes) :
    (∀ n, attributes.seq_number = some n → n ≠ 0 →
        should_skip_attributes decodeTx ethCall v attributes =
          Except.ok (v, v.should_skip)) ∧
      ((attributes.seq_number = some 0 ∧
          (attributes.transactions = none ∨ attributes.transactions = some [])) →
        should_skip_attributes decodeTx ethCall v attributes =
          Except.ok ({ should_skip := false }, false)) ∧
      (∀ raw_tx rest tx, attributes.seq_number = some 0 →
        attributes.transactions = some (raw_tx :: rest) →
        decodeTx raw_tx = some tx →
        ∀ a, tx.to_addr = some a → ∀ g, tx.gas_price = some g →
          should_skip_attributes decodeTx ethCall v attributes =
            Except.ok ({ should_skip := (ethCall tx BlockTag.pending).isNone },
              (ethCall tx BlockTag.pending).isNone)) := by
  refine ⟨?_, ?_, ?_⟩
  · intro n hseq hn
    unfold should_skip_attributes update_epoch
    simp [hseq, hn]
  · rintro ⟨hseq, htx | htx⟩ <;>
      · unfold should_skip_attributes update_epoch
        simp [hseq, htx]
  · intro raw_tx rest tx hseq htxs hdec a hta g hgp
    unfold should_skip_attributes update_epoch
    simp [hseq, htxs, hdec, hta, hgp]

/-- C10: under the precondition `first_l2_block_num ≥ safe_head.number`
(with everything in `u64` range) the timestamp computation of
`decode_batches_v0` equals the exact value
`(first_l2_block_num − safe_l2_num) · blocktime + safe_l2_ts`; without the
precondition the unchecked `u64` subtraction wraps around instead of
producing a decode error: at the concrete input with first L2 block 3 below
safe head 5, decoding succeeds and yields the bogus timestamp 996, earlier
than the safe head's own timestamp 1000. -/
theorem c10_decode_batches_v0_underflow :
    (∀ f s bt ts : Nat, s ≤ f → f < 2 ^ 64 → s < 2 ^ 64 →
        (f - s) * bt + ts < 2 ^ 64 →
        wadd (wmul (wsub f s) bt) ts = (f - s) * bt + ts) ∧
      c10BatchList.first_l2_block_num < c10State.safe_head.number ∧
      decode_batches_v0 2 c10State 12 [c10BatchList] =
        Except.ok [c10Expected] ∧
      996 < c10State.safe_head.timestamp := by
  refine ⟨?_, by decide, by decide, by decide⟩
  intro f s bt ts hsf hf hs hb
  have hsmod : s % 2 ^ 64 = s := Nat.mod_eq_of_lt hs
  have h1 : f + 2 ^ 64 - s = f - s + 2 ^ 64 := by omega
  have h2 : wsub f s = f - s := by
    show (f + 2 ^ 64 - s % 2 ^ 64) % 2 ^ 64 = f - s
    rw [hsmod, h1, Nat.add_mod_right]
    exact Nat.mod_eq_of_lt (by omega)
  have hmul_lt : (f - s) * bt < 2 ^ 64 :=
    lt_of_le_of_lt (Nat.le_add_right _ ts) hb
  have h3 : wmul (f - s) bt = (f - s) * bt := Nat.mod_eq_of_lt hmul_lt
  rw [h2, h3]
  exact Nat.mod_eq_of_lt hb

end Magi
